import Mathlib

/-
Verification development for the ArmeniaPollutionAnalysis repository.

The repository contains two near-duplicate polling services:
  - src/GoogleMapsAPI/app.py        (traffic corridors, namespace Maps below)
  - src/AirPollutionGoogleAPI/app.py (air-quality locations, namespace Air below)

Each service is embedded as a pure state-transition function.  Side effects
are made explicit: the wall clock, the upstream fetch results and the API key
become fields of an environment record; the CSV file, the optional GCS blob,
the in-memory caches and the health counters become fields of a state record.
Python floats are modelled as exact rationals, Python None as Option.none,
exceptions thrown by an HTTP fetch as Except.error carrying str(e).
-/

set_option autoImplicit false

namespace ArmeniaPollution

/- The Batteries rational arithmetic is irreducible by default; the concrete
scenarios below are evaluated by the elaborator, which needs to unfold it. -/
attribute [local semireducible] Rat.mul Rat.inv Rat.add Rat.sub

/-- One Python value that ends up in one CSV cell: None, an int, a float
(modelled as a rational) or a string. -/
inductive Cell where
  | none : Cell
  | int : Int → Cell
  | rat : Rat → Cell
  | str : String → Cell
deriving DecidableEq

/-- Python str() of a cell value.  str(None) is the literal "None".  Numeric
formatting is shared by every sink that stringifies the same cell, so the
exact float rendering is irrelevant when two sinks are compared; we render a
rational with toString. -/
def pyStr : Cell → String
  | Cell.none => "None"
  | Cell.int n => toString n
  | Cell.rat q => toString q
  | Cell.str s => s

/-- True when the csv module's QUOTE_MINIMAL policy must quote a field: the
field contains the delimiter, the quote character or a line-terminator
character. -/
def needsQuoting (s : String) : Bool :=
  s.toList.any (fun ch => ch = ',' || ch = '"' || ch = '\n' || ch = '\r')

/-- Double every quote character, as the csv writer does inside a quoted
field. -/
def escapeQuotes : List Char → List Char
  | [] => []
  | ch :: t => if ch = '"' then '"' :: '"' :: escapeQuotes t else ch :: escapeQuotes t

/-- The csv module's QUOTE_MINIMAL field serialization: a field that needs
quoting is wrapped in quotes with its inner quotes doubled, any other field
is written verbatim. -/
def csvQuoteMinimal (s : String) : String :=
  if needsQuoting s then String.mk ('"' :: escapeQuotes s.toList ++ ['"']) else s

/-- The field text produced by the csv module writer: None becomes the empty
cell, every other value is rendered with str() and then serialized under
QUOTE_MINIMAL.  A row of such fields joined by commas is exactly the line
csv.DictWriter emits, so a list of these fields is a lossless model of the
local sink's line. -/
def csvCellStr : Cell → String
  | Cell.none => ""
  | c => csvQuoteMinimal (pyStr c)

/-- Python ",".join. -/
def joinComma : List String → String
  | [] => ""
  | [x] => x
  | x :: y :: t => x ++ "," ++ joinComma (y :: t)

/-- Python dict assignment d[k] = v on a dict represented as an ordered
association list: an existing key keeps its position and gets the new value,
a new key is appended at the end (insertion order). -/
def updateAssoc {α : Type} : List (String × α) → String → α → List (String × α)
  | [], k, v => [(k, v)]
  | (k', v') :: t, k, v =>
    if k' = k then (k, v) :: t else (k', v') :: updateAssoc t k v

/-- Python dict lookup d.get(k) on the ordered association list. -/
def lookupAssoc {α : Type} : List (String × α) → String → Option α
  | [], _ => Option.none
  | (k', v') :: t, k => if k' = k then Option.some v' else lookupAssoc t k

/-- A CSV file on disk: Option.none when the file does not exist, otherwise
the list of its rows (each row a list of cell texts), header included. -/
abbrev FileCsv := Option (List (List String))

/-- Python str.strip on a character list: drop leading and trailing
whitespace. -/
def stripChars (cs : List Char) : List Char :=
  ((cs.dropWhile Char.isWhitespace).reverse.dropWhile Char.isWhitespace).reverse

/-- Python string comparison a <= b: lexicographic on code points. -/
def pyStrLe (a b : String) : Bool :=
  pyCharsLe a.toList b.toList
where
  pyCharsLe : List Char → List Char → Bool
    | [], _ => true
    | _ :: _, [] => false
    | x :: xs, y :: ys => x < y || (x = y && pyCharsLe xs ys)

namespace Maps

/-- CSV_HEADER of src/GoogleMapsAPI/app.py. -/
def CSV_HEADER : List String :=
  ["timestamp_utc", "label",
   "origin_lat", "origin_lng", "dest_lat", "dest_lng",
   "duration_sec", "static_sec", "distance_m", "congestion_index",
   "advisory_json"]

/-- PLOT_WINDOW_LIMIT default: the chart window served to the dashboard. -/
def PLOT_WINDOW_LIMIT : Nat := 150

/-- ensure_long_csv: with GCS enabled it returns at once (no file is
created); otherwise it creates the file with the header row when it does not
exist and leaves an existing file untouched. -/
def ensure_long_csv (use_gcs : Bool) (f : FileCsv) : FileCsv :=
  if use_gcs then f
  else
    match f with
    | Option.none => Option.some [CSV_HEADER]
    | Option.some c => Option.some c

/-- Digit run to a natural number, most significant digit first. -/
def digitsToNat (cs : List Char) : Nat :=
  cs.foldl (fun acc c => 10 * acc + (c.toNat - 48)) 0

/-- Python float(s) restricted to plain decimal literals: optional
whitespace, optional sign, digits with an optional single decimal point, at
least one digit overall.  Exponent forms, inf/nan and digit underscores are
outside the modelled input domain of this repository. -/
def parseDecimal (cs0 : List Char) : Option Rat :=
  let cs := stripChars cs0
  let body : Int × List Char :=
    match cs with
    | '-' :: rest => (-1, rest)
    | '+' :: rest => (1, rest)
    | _ => (1, cs)
  let intPart := body.2.takeWhile Char.isDigit
  let rest := body.2.dropWhile Char.isDigit
  match rest with
  | [] =>
    if intPart.isEmpty then Option.none
    else Option.some ((body.1 : Rat) * (digitsToNat intPart : Rat))
  | '.' :: frac =>
    if frac.all Char.isDigit && !(intPart.isEmpty && frac.isEmpty) then
      Option.some ((body.1 : Rat) *
        ((digitsToNat intPart : Rat) + (digitsToNat frac : Rat) / ((10 : Rat) ^ frac.length)))
    else Option.none
  | _ => Option.none

/-- Python int(float(q)) truncates toward zero. -/
def pyTruncOfRat (q : Rat) : Int :=
  if q < 0 then -((-q).floor) else q.floor

/-- seconds_to_int: None or the empty string yield None; otherwise the
stripped string must end in "s" and its prefix must parse as a number, which
is truncated to an int. -/
def seconds_to_int (s : Option String) : Option Int :=
  match s with
  | Option.none => Option.none
  | Option.some str =>
    if str = "" then Option.none
    else
      let t := stripChars str.toList
      match t.getLast? with
      | Option.some 's' =>
        match parseDecimal t.dropLast with
        | Option.some q => Option.some (pyTruncOfRat q)
        | Option.none => Option.none
      | _ => Option.none

/-- Python round to an integer with round-half-to-even (banker's rounding),
modelled on the exact rational value. -/
def roundHalfEven (q : Rat) : Int :=
  let f := q.floor
  let r := q - (f : Rat)
  if r < (1 : Rat) / 2 then f
  else if (1 : Rat) / 2 < r then f + 1
  else if f % 2 = 0 then f else f + 1

/-- Python round(q, 3), modelled on the exact rational value (the original
program rounds a binary float; the representation error of the double is not
modelled). -/
def pyRound3 (q : Rat) : Rat := (roundHalfEven (q * 1000) : Rat) / 1000

/-- The congestion_index computation of poll_once: the Python condition is
"dur and static_dur and static_dur > 0", so a duration of 0 is falsy and
yields None even though both inputs are present. -/
def congestion_of : Option Int → Option Int → Option Rat
  | Option.some d, Option.some sd =>
    if d ≠ 0 ∧ sd ≠ 0 ∧ 0 < sd then
      Option.some (pyRound3 ((d : Rat) / (sd : Rat)))
    else Option.none
  | _, _ => Option.none

/-- One monitored corridor from corridors.json. -/
structure Corridor where
  label : String
  origin_lat : Rat
  origin_lng : Rat
  dest_lat : Rat
  dest_lng : Rat
deriving DecidableEq

/-- The first route of a Routes API response, after field-mask projection:
(data.get("routes") or [{}])[0].  A missing field is None; the travelAdvisory
payload is kept as the string json.dumps produces for it. -/
structure RouteData where
  duration : Option String
  staticDuration : Option String
  distanceMeters : Option Int
  advisoryJson : String
deriving DecidableEq

/-- One row dict built by poll_once for one corridor. -/
structure MapsRow where
  timestamp_utc : String
  label : String
  origin_lat : Rat
  origin_lng : Rat
  dest_lat : Rat
  dest_lng : Rat
  duration_sec : Option Int
  static_sec : Option Int
  distance_m : Option Int
  congestion_index : Option Rat
  advisory_json : String
deriving DecidableEq

/-- The row dict for one corridor, given the cycle timestamp and the parsed
route payload. -/
def maps_build_row (ts : String) (c : Corridor) (route : RouteData) : MapsRow :=
  let dur := seconds_to_int route.duration
  let static_dur := seconds_to_int route.staticDuration
  { timestamp_utc := ts
    label := c.label
    origin_lat := c.origin_lat
    origin_lng := c.origin_lng
    dest_lat := c.dest_lat
    dest_lng := c.dest_lng
    duration_sec := dur
    static_sec := static_dur
    distance_m := route.distanceMeters
    congestion_index := congestion_of dur static_dur
    advisory_json := route.advisoryJson }

/-- The cells of one row in CSV_HEADER column order, as Python values. -/
def mapsCellsOf (r : MapsRow) : List Cell :=
  [Cell.str r.timestamp_utc, Cell.str r.label,
   Cell.rat r.origin_lat, Cell.rat r.origin_lng, Cell.rat r.dest_lat, Cell.rat r.dest_lng,
   (match r.duration_sec with | Option.none => Cell.none | Option.some n => Cell.int n),
   (match r.static_sec with | Option.none => Cell.none | Option.some n => Cell.int n),
   (match r.distance_m with | Option.none => Cell.none | Option.some n => Cell.int n),
   (match r.congestion_index with | Option.none => Cell.none | Option.some q => Cell.rat q),
   Cell.str r.advisory_json]

/-- The serialized fields csv.DictWriter appends to the local file for one
row (QUOTE_MINIMAL applied per field, None as an empty field). -/
def mapsLocalCells (r : MapsRow) : List String := (mapsCellsOf r).map csvCellStr

/-- The raw cell texts of one row as the GCS mirror renders them: plain
str(row.get(col, "")) per header column, so None is the literal "None" and
no csv quoting is applied. -/
def mapsGcsCells (r : MapsRow) : List String := (mapsCellsOf r).map pyStr

/-- The line the GCS mirror appends for one row:
",".join(str(row.get(col, "")) for col in CSV_HEADER).  The blob is a flat
string, so a cell containing a comma or quote loses its field boundary
there. -/
def mapsGcsLine (r : MapsRow) : String := joinComma (mapsGcsCells r)

/-- The mirror's append loop: output += line + newline for every row. -/
def gcsAppendRows (existing : String) (rows : List MapsRow) : String :=
  rows.foldl (fun out r => out ++ mapsGcsLine r ++ "\n") existing

/-- append_to_csv: appends every row to the local file (open in append mode
creates a missing file without writing any header) and, when GCS is enabled,
rebuilds the blob as previous-content (or a bare header line when the
download fails) followed by the raw str()-joined lines.  Returns
(local file, blob). -/
def append_to_csv (use_gcs : Bool) (rows : List MapsRow)
    (localFile : FileCsv) (blob : Option String) :
    FileCsv × Option String :=
  ( Option.some (localFile.getD [] ++ rows.map mapsLocalCells),
    if use_gcs then
      Option.some (gcsAppendRows (blob.getD (joinComma CSV_HEADER ++ "\n")) rows)
    else blob )

/-- One history cache entry: (iso timestamp, congestion_index, duration_sec).
The datetime.fromisoformat/isoformat round trip on the timestamps the poller
produces is the identity, so the entry keeps the row timestamp verbatim. -/
abbrev HistEntry := String × Option Rat × Option Int

/-- history_cache.setdefault(label, []).append(entry): the entry is appended
at the end of the series of its label; a new label is appended at the end of
the dict. -/
def historyAppend : List (String × List HistEntry) → String → HistEntry →
    List (String × List HistEntry)
  | [], k, e => [(k, [e])]
  | (k', l) :: t, k, e =>
    if k' = k then (k', l ++ [e]) :: t else (k', l) :: historyAppend t k e

/-- The mutable module state of src/GoogleMapsAPI/app.py. -/
structure MapsState where
  csvLocal : FileCsv
  gcsBlob : Option String
  latest_cache : List (String × MapsRow)
  history_cache : List (String × List HistEntry)
  last_poll_at : Option String
  last_poll_error : Option String
  rows_written_total : Nat
deriving DecidableEq

/-- The inputs of one poll cycle: API key, configured corridors, the fetch
outcome per corridor (Except.error carries str(e)), the cycle timestamp
datetime.now produced, and the USE_GCS flag. -/
structure MapsEnv where
  apiKey : Option String
  corridors : List Corridor
  fetch : Corridor → Except String RouteData
  ts : String
  use_gcs : Bool

/-- The loop accumulator of poll_once: collected rows, the pending
last_poll_error value, and the successful-corridor count. -/
structure MapsAcc where
  rows : List MapsRow
  err : Option String
  successes : Nat
deriving DecidableEq

/-- One iteration of the corridor loop. -/
def maps_step (fetch : Corridor → Except String RouteData) (ts : String)
    (acc : MapsAcc) (c : Corridor) : MapsAcc :=
  match fetch c with
  | Except.ok route =>
    { acc with
      rows := acc.rows ++ [maps_build_row ts c route]
      successes := acc.successes + 1 }
  | Except.error e =>
    { acc with err := Option.some (c.label ++ ": " ++ e) }

/-- The corridor loop of poll_once. -/
def maps_process (fetch : Corridor → Except String RouteData) (ts : String) :
    List Corridor → MapsAcc → MapsAcc
  | [], acc => acc
  | c :: t, acc => maps_process fetch ts t (maps_step fetch ts acc c)

/-- The rows the corridor loop collects: one row per corridor whose fetch
succeeded, in configuration order (proved equal to the loop's collection in
maps_process_rows_eq). -/
def maps_rows_for (fetch : Corridor → Except String RouteData) (ts : String)
    (cs : List Corridor) : List MapsRow :=
  cs.filterMap (fun c =>
    match fetch c with
    | Except.ok route => Option.some (maps_build_row ts c route)
    | Except.error _ => Option.none)

/-- The loop accumulator at loop entry: no rows yet, last_poll_error keeps
its previous value unless some corridor fails. -/
def maps_init_acc (s : MapsState) : MapsAcc :=
  { rows := [], err := s.last_poll_error, successes := 0 }

/-- The cache-update loop after a write: per row, bump rows_written_total,
overwrite latest_cache[label] and append the history entry. -/
def maps_update_caches : List MapsRow → List (String × MapsRow) →
    List (String × List HistEntry) → Nat →
    List (String × MapsRow) × List (String × List HistEntry) × Nat
  | [], latest, hist, total => (latest, hist, total)
  | r :: rs, latest, hist, total =>
    maps_update_caches rs (updateAssoc latest r.label r)
      (historyAppend hist r.label (r.timestamp_utc, r.congestion_index, r.duration_sec))
      (total + 1)

/-- The tail of poll_once after the corridor loop, given the collected rows
and the state already holding last_poll_at and the loop's last_poll_error:
with no rows nothing else happens; otherwise the rows are appended (locally
and to GCS), the caches and the counter are updated and last_poll_error is
reset to None. -/
def maps_after_loop (use_gcs : Bool) : List MapsRow → MapsState → MapsState
  | [], s1 => s1
  | first :: rest, s1 =>
    let app := append_to_csv use_gcs (first :: rest) s1.csvLocal s1.gcsBlob
    let upd := maps_update_caches (first :: rest) s1.latest_cache s1.history_cache
      s1.rows_written_total
    { s1 with
      csvLocal := app.1
      gcsBlob := app.2
      latest_cache := upd.1
      history_cache := upd.2.1
      rows_written_total := upd.2.2
      last_poll_error := Option.none }

/-- The state right after the corridor loop: last_poll_at was set to the
cycle timestamp and the loop's pending error value was stored. -/
def maps_mid_state (env : MapsEnv) (s : MapsState) : MapsState :=
  { s with
    last_poll_at := Option.some env.ts
    last_poll_error := (maps_process env.fetch env.ts env.corridors (maps_init_acc s)).err }

/-- poll_once of src/GoogleMapsAPI/app.py as a state transition.  A falsy
API key records the error and returns at once; otherwise one timestamp ts is
taken, every corridor is polled with per-corridor error isolation, and the
collected rows are persisted. -/
def poll_once (env : MapsEnv) (s : MapsState) : MapsState :=
  if env.apiKey.getD "" = "" then
    { s with last_poll_error := Option.some "GOOGLE_MAPS_API_KEY is not set" }
  else
    maps_after_loop env.use_gcs
      (maps_process env.fetch env.ts env.corridors (maps_init_acc s)).rows
      (maps_mid_state env s)

end Maps

namespace Air

/-- CSV_HEADER of src/AirPollutionGoogleAPI/app.py. -/
def CSV_HEADER : List String :=
  ["timestamp_utc", "location_label", "latitude", "longitude", "description",
   "overall_aqi", "CO_ppb", "NO2_ugm3", "O3_ugm3", "SO2_ugm3", "PM25_ugm3", "PM10_ugm3"]

/-- ensure_csv: create the file with the header row when it does not exist,
leave an existing file untouched. -/
def ensure_csv (f : FileCsv) : FileCsv :=
  match f with
  | Option.none => Option.some [CSV_HEADER]
  | Option.some c => Option.some c

/-- The startup block of the main program: an existing CSV file is removed,
then ensure_csv recreates it. -/
def main_startup (f : FileCsv) : FileCsv :=
  ensure_csv (if f.isSome then Option.none else f)

/-- One monitored location from MONITORING_LOCATIONS. -/
structure Location where
  label : String
  latitude : Rat
  longitude : Rat
  description : String
deriving DecidableEq

/-- One element of the "indexes" array of the Air Quality API response. -/
structure RawIndex where
  code : String
  aqi : Int
deriving DecidableEq

/-- One element of the "pollutants" array: code plus the optional
concentration value and units (concentration.get("value") and
concentration.get("units")). -/
structure RawPollutant where
  code : String
  value : Option Rat
  units : Option String
deriving DecidableEq

/-- The decoded JSON payload of one Air Quality API response; a missing key
is Option.none. -/
structure RawData where
  indexes : Option (List RawIndex)
  pollutants : Option (List RawPollutant)
deriving DecidableEq

/-- The parsed record built by parse_air_quality_data: its timestamp is taken
from datetime.now at parse time (the now argument), the overall aqi is the
last "uaqi" index, and the pollutant dict maps each raw code to its
concentration value and units (last assignment per code wins, insertion
order kept). -/
structure ParsedAir where
  timestamp_utc : String
  location_label : String
  latitude : Rat
  longitude : Rat
  description : String
  overall_aqi : Option Int
  pollutants : List (String × Option Rat × Option String)
deriving DecidableEq

/-- parse_air_quality_data with the datetime.now call made explicit. -/
def parse_air_quality_data (raw : RawData) (location : Location) (now : String) : ParsedAir :=
  { timestamp_utc := now
    location_label := location.label
    latitude := location.latitude
    longitude := location.longitude
    description := location.description
    overall_aqi :=
      (raw.indexes.getD []).foldl
        (fun acc i => if i.code = "uaqi" then Option.some i.aqi else acc) Option.none
    pollutants :=
      (raw.pollutants.getD []).foldl
        (fun acc p => updateAssoc acc p.code (p.value, p.units)) [] }

/-- One row dict built by create_csv_row. -/
structure AirRow where
  timestamp_utc : String
  location_label : String
  latitude : Rat
  longitude : Rat
  description : String
  overall_aqi : Option Int
  CO_ppb : Option Rat
  NO2_ugm3 : Option Rat
  O3_ugm3 : Option Rat
  SO2_ugm3 : Option Rat
  PM25_ugm3 : Option Rat
  PM10_ugm3 : Option Rat
deriving DecidableEq

/-- Python str.upper restricted to ASCII letters (the pollutant codes of the
upstream payload are ASCII). -/
def pyUpperChar (c : Char) : Char :=
  if 'a' ≤ c ∧ c ≤ 'z' then Char.ofNat (c.toNat - 32) else c

/-- Python str.upper on an ASCII string. -/
def pyUpper (s : String) : String := String.mk (s.toList.map pyUpperChar)

/-- The pollutant column fill loop of create_csv_row: the column starts as
None and each dict entry whose uppercased code matches the column's pollutant
code overwrites it with that entry's concentration value. -/
def pollutantColumn (ps : List (String × Option Rat × Option String)) (code : String) :
    Option Rat :=
  ps.foldl (fun acc p => if pyUpper p.1 = code then p.2.1 else acc) Option.none

/-- create_csv_row. -/
def create_csv_row (p : ParsedAir) : AirRow :=
  { timestamp_utc := p.timestamp_utc
    location_label := p.location_label
    latitude := p.latitude
    longitude := p.longitude
    description := p.description
    overall_aqi := p.overall_aqi
    CO_ppb := pollutantColumn p.pollutants "CO"
    NO2_ugm3 := pollutantColumn p.pollutants "NO2"
    O3_ugm3 := pollutantColumn p.pollutants "O3"
    SO2_ugm3 := pollutantColumn p.pollutants "SO2"
    PM25_ugm3 := pollutantColumn p.pollutants "PM25"
    PM10_ugm3 := pollutantColumn p.pollutants "PM10" }

/-- cleanup_old_data: keep the rows whose timestamp string is >= the cutoff
iso string (the source compares the ISO-8601 strings directly with Python
string comparison). -/
def cleanup_old_data (cutoff_iso : String) (cache : List AirRow) : List AirRow :=
  cache.filter (fun row => pyStrLe cutoff_iso row.timestamp_utc)

/-- The mutable module state of src/AirPollutionGoogleAPI/app.py.  csvRows is
the sequence of data rows appended to the CSV file by the poller (the header
and on-disk existence are covered by the FileCsv model of ensure_csv). -/
structure AirState where
  csvRows : List AirRow
  latest_cache : List (String × AirRow)
  recent_data_cache : List AirRow
  last_poll_at : Option String
  last_poll_error : Option String
  rows_written_total : Nat
  initial_poll_done : Bool
deriving DecidableEq

/-- The inputs of one poll cycle: API key, configured locations, the fetch
outcome per location, the datetime.now value at each location's parse call
(clock), the datetime.now value taken after the loop, and the 24-hour cutoff
iso string cleanup_old_data computes. -/
structure AirEnv where
  apiKey : Option String
  locations : List Location
  fetch : Location → Except String RawData
  clock : Location → String
  nowAfter : String
  cutoff_iso : String

/-- The loop accumulator of poll_once: collected rows, the latest cache and
the pending last_poll_error value. -/
structure AirAcc where
  all_rows : List AirRow
  latest : List (String × AirRow)
  err : Option String
deriving DecidableEq

/-- One iteration of the location loop: on success the row is collected and
latest_cache[label] is overwritten at once; on failure last_poll_error is set
to "label: str(e)". -/
def air_step (fetch : Location → Except String RawData) (clock : Location → String)
    (acc : AirAcc) (loc : Location) : AirAcc :=
  match fetch loc with
  | Except.ok raw =>
    let row := create_csv_row (parse_air_quality_data raw loc (clock loc))
    { acc with
      all_rows := acc.all_rows ++ [row]
      latest := updateAssoc acc.latest loc.label row }
  | Except.error e =>
    { acc with err := Option.some (loc.label ++ ": " ++ e) }

/-- The location loop of poll_once. -/
def air_process (fetch : Location → Except String RawData) (clock : Location → String) :
    List Location → AirAcc → AirAcc
  | [], acc => acc
  | l :: t, acc => air_process fetch clock t (air_step fetch clock acc l)

/-- The loop accumulator at loop entry. -/
def air_init_acc (s : AirState) : AirAcc :=
  { all_rows := [], latest := s.latest_cache, err := s.last_poll_error }

/-- The tail of poll_once after the location loop, given the collected rows
and the state already holding the loop results: with no rows only
initial_poll_done is set; otherwise the duplicate guard compares the FIRST
row's timestamp against the timestamps already in the recent cache, either
skipping the append entirely or appending every row, extending the recent
cache and evicting entries older than the cutoff; in both of these branches
last_poll_error is reset to None. -/
def air_after_loop (cutoff_iso : String) : List AirRow → AirState → AirState
  | [], s1 => { s1 with initial_poll_done := true }
  | first :: rest, s1 =>
    if first.timestamp_utc ∈ s1.recent_data_cache.map (fun r => r.timestamp_utc) then
      { s1 with last_poll_error := Option.none, initial_poll_done := true }
    else
      { s1 with
        csvRows := s1.csvRows ++ first :: rest
        rows_written_total := s1.rows_written_total + (first :: rest).length
        recent_data_cache := cleanup_old_data cutoff_iso (s1.recent_data_cache ++ first :: rest)
        last_poll_error := Option.none
        initial_poll_done := true }

/-- The state right after the location loop: the loop already overwrote the
latest cache and the pending error, and last_poll_at was set to the
datetime.now value taken after the loop. -/
def air_mid_state (env : AirEnv) (s : AirState) : AirState :=
  { s with
    latest_cache := (air_process env.fetch env.clock env.locations (air_init_acc s)).latest
    last_poll_error := (air_process env.fetch env.clock env.locations (air_init_acc s)).err
    last_poll_at := Option.some env.nowAfter }

/-- poll_once of src/AirPollutionGoogleAPI/app.py as a state transition.  A
falsy API key records the error and returns at once (neither last_poll_at nor
initial_poll_done is touched); otherwise every location is polled with
per-location error isolation and the collected rows go through the duplicate
guard. -/
def poll_once (env : AirEnv) (s : AirState) : AirState :=
  if env.apiKey.getD "" = "" then
    { s with last_poll_error := Option.some "GOOGLE_AIR_QUALITY_API_KEY is not set" }
  else
    air_after_loop env.cutoff_iso
      (air_process env.fetch env.clock env.locations (air_init_acc s)).all_rows
      (air_mid_state env s)

end Air

namespace Maps

/-- A concrete corridor used in the concrete-scenario theorems. -/
def corA : Corridor :=
  { label := "A", origin_lat := 0, origin_lng := 0, dest_lat := 1, dest_lng := 1 }

/-- A concrete successful route payload: 600s live, 400s free-flow. -/
def routeA : RouteData :=
  { duration := Option.some "600s", staticDuration := Option.some "400s",
    distanceMeters := Option.some 5000, advisoryJson := "\x7b\x7d" }

/-- A route payload whose live duration parses to 0 while the free-flow
duration parses to 100. -/
def routeZ : RouteData :=
  { duration := Option.some "0s", staticDuration := Option.some "100s",
    distanceMeters := Option.some 5000, advisoryJson := "\x7b\x7d" }

/-- A route payload with a missing free-flow duration, so static_sec and
congestion_index of its row are None. -/
def routeN : RouteData :=
  { duration := Option.some "600s", staticDuration := Option.none,
    distanceMeters := Option.some 5000, advisoryJson := "\x7b\x7d" }

/-- The row poll_once builds for corA/routeN: its static_sec and
congestion_index metrics are missing. -/
def rowN : MapsRow := maps_build_row "2024-01-01T00:00:00+00:00" corA routeN

/-- A route payload whose advisory json contains quotes and a comma, as
json.dumps of any non-empty travelAdvisory does. -/
def routeQ : RouteData :=
  { duration := Option.some "600s", staticDuration := Option.some "400s",
    distanceMeters := Option.some 5000,
    advisoryJson := "\x7b\"a\": 1, \"b\": 2\x7d" }

/-- The row poll_once builds for corA/routeQ: every metric present, advisory
text needing csv quoting. -/
def rowQ : MapsRow := maps_build_row "2024-01-01T00:00:00+00:00" corA routeQ

/-- A concrete single-corridor environment with a fixed forced timestamp. -/
def mapsEnv0 : MapsEnv :=
  { apiKey := Option.some "k", corridors := [corA],
    fetch := fun _ => Except.ok routeA,
    ts := "2024-01-01T00:00:00+00:00", use_gcs := false }

/-- The module state right after startup (ensure_long_csv with GCS disabled
created the local file with the bare header). -/
def mapsS0 : MapsState :=
  { csvLocal := ensure_long_csv false Option.none, gcsBlob := Option.none,
    latest_cache := [], history_cache := [],
    last_poll_at := Option.none, last_poll_error := Option.none,
    rows_written_total := 0 }

/-- The environment of the n-th cycle of the retention scenario: every cycle
succeeds for the single corridor and carries a fresh timestamp. -/
def c2Env (n : Nat) : MapsEnv :=
  { apiKey := Option.some "k", corridors := [corA],
    fetch := fun _ => Except.ok routeN,
    ts := "T" ++ toString n, use_gcs := false }

/-- The module state after n cycles of the retention scenario. -/
def c2State : Nat → MapsState
  | 0 => mapsS0
  | n + 1 => poll_once (c2Env n) (c2State n)

end Maps

namespace Air

/-- Concrete location A of the two-location scenario. -/
def locA : Location :=
  { label := "A", latitude := 40, longitude := 44, description := "locA" }

/-- Concrete location B of the two-location scenario. -/
def locB : Location :=
  { label := "B", latitude := 41, longitude := 45, description := "locB" }

/-- The mocked payload for A: universal aqi 42 and a no2 concentration 10. -/
def rawA : RawData :=
  { indexes := Option.some [{ code := "uaqi", aqi := 42 }],
    pollutants := Option.some [{ code := "no2", value := Option.some 10,
                                 units := Option.some "ugm3" }] }

/-- The mocked source client: A succeeds with rawA, everything else times
out. -/
def fetchAB : Location → Except String RawData :=
  fun l => if l.label = "A" then Except.ok rawA else Except.error "timeout"

/-- The concrete two-location environment: one fetch succeeds, one raises;
the forced cycle timestamp is constant. -/
def envAB : AirEnv :=
  { apiKey := Option.some "k", locations := [locA, locB], fetch := fetchAB,
    clock := fun _ => "2024-01-01T00:00:00+00:00",
    nowAfter := "2024-01-01T00:00:05+00:00",
    cutoff_iso := "2023-12-31T00:00:05+00:00" }

/-- A two-location environment in which both fetches succeed but the two
parse calls observe different clock values. -/
def envTwoClocks : AirEnv :=
  { apiKey := Option.some "k", locations := [locA, locB],
    fetch := fun _ => Except.ok rawA,
    clock := fun l => if l.label = "A" then "2024-01-01T00:00:00+00:00"
                      else "2024-01-01T00:00:01+00:00",
    nowAfter := "2024-01-01T00:00:05+00:00",
    cutoff_iso := "2023-12-31T00:00:05+00:00" }

/-- The module state at process start. -/
def s0 : AirState :=
  { csvRows := [], latest_cache := [], recent_data_cache := [],
    last_poll_at := Option.none, last_poll_error := Option.none,
    rows_written_total := 0, initial_poll_done := false }

/-- The reading produced for A in the concrete scenario. -/
def rowA : AirRow :=
  create_csv_row (parse_air_quality_data rawA locA "2024-01-01T00:00:00+00:00")

/-- A state whose recent cache already holds a reading carrying the forced
cycle timestamp (as after a first trigger of the same cycle). -/
def sDup : AirState := { s0 with recent_data_cache := [rowA] }

end Air

/-! Helper lemmas about the dict model. -/

theorem lookupAssoc_updateAssoc_self {α : Type} (l : List (String × α)) (k : String) (v : α) :
    lookupAssoc (updateAssoc l k v) k = Option.some v := by
  induction l with
  | nil => simp [updateAssoc, lookupAssoc]
  | cons p t ih =>
    obtain ⟨k', v'⟩ := p
    by_cases h : k' = k
    · simp [updateAssoc, h, lookupAssoc]
    · simp [updateAssoc, h, lookupAssoc, ih]

theorem lookupAssoc_updateAssoc_ne {α : Type} (l : List (String × α)) (ku kl : String)
    (v : α) (h : ku ≠ kl) :
    lookupAssoc (updateAssoc l ku v) kl = lookupAssoc l kl := by
  induction l with
  | nil => simp [updateAssoc, lookupAssoc, h]
  | cons p t ih =>
    obtain ⟨k', v'⟩ := p
    by_cases hk : k' = ku
    · subst hk
      simp [updateAssoc, lookupAssoc, h]
    · simp [updateAssoc, hk, lookupAssoc, ih]

/-! Helper lemmas about the csv field serialization. -/

theorem escapeQuotes_length (cs : List Char) : cs.length ≤ (escapeQuotes cs).length := by
  induction cs with
  | nil => simp [escapeQuotes]
  | cons ch t ih =>
    by_cases h : ch = '"'
    · simp only [escapeQuotes, if_pos h, List.length_cons]
      omega
    · simp only [escapeQuotes, if_neg h, List.length_cons]
      omega

theorem csvQuoteMinimal_eq_of_plain (s : String) (h : needsQuoting s = false) :
    csvQuoteMinimal s = s := by
  simp [csvQuoteMinimal, h]

theorem csvQuoteMinimal_ne_of_needsQuoting (s : String) (h : needsQuoting s = true) :
    ¬ csvQuoteMinimal s = s := by
  intro he
  unfold csvQuoteMinimal at he
  rw [if_pos h] at he
  have hlen : (String.mk ('"' :: escapeQuotes s.toList ++ ['"'])).length = s.length := by
    rw [he]
  have h2 := escapeQuotes_length s.toList
  simp only [String.length, String.toList, List.length_cons, List.length_append,
    List.length_singleton] at hlen h2
  omega

namespace Air

/-! Helper lemmas about the location loop and the post-loop tail. -/

theorem air_process_latest_preserve (fetch : Location → Except String RawData)
    (clock : Location → String) (locs : List Location) (acc : AirAcc) (lbl : String)
    (h : lbl ∉ locs.map (fun l => l.label)) :
    lookupAssoc (air_process fetch clock locs acc).latest lbl = lookupAssoc acc.latest lbl := by
  induction locs generalizing acc with
  | nil => rfl
  | cons l t ih =>
    simp only [List.map_cons, List.mem_cons, not_or] at h
    show lookupAssoc (air_process fetch clock t (air_step fetch clock acc l)).latest lbl = _
    rw [ih _ h.2]
    unfold air_step
    cases hf : fetch l with
    | ok raw =>
      exact lookupAssoc_updateAssoc_ne _ _ _ _ (fun e => h.1 e.symm)
    | error e => rfl

theorem air_process_latest_of_ok (fetch : Location → Except String RawData)
    (clock : Location → String) (locs : List Location) (acc : AirAcc)
    (loc : Location) (raw : RawData)
    (hnd : (locs.map (fun l => l.label)).Nodup)
    (hmem : loc ∈ locs) (hf : fetch loc = Except.ok raw) :
    lookupAssoc (air_process fetch clock locs acc).latest loc.label
      = Option.some (create_csv_row (parse_air_quality_data raw loc (clock loc))) := by
  induction locs generalizing acc with
  | nil => cases hmem
  | cons l t ih =>
    simp only [List.map_cons, List.nodup_cons] at hnd
    rcases List.mem_cons.mp hmem with heq | hmem'
    · subst heq
      show lookupAssoc (air_process fetch clock t (air_step fetch clock acc loc)).latest
          loc.label = _
      rw [air_process_latest_preserve fetch clock t _ _ hnd.1]
      unfold air_step
      rw [hf]
      exact lookupAssoc_updateAssoc_self _ _ _
    · exact ih _ hnd.2 hmem'

theorem air_after_loop_latest (c : String) (rows : List AirRow) (s1 : AirState) :
    (air_after_loop c rows s1).latest_cache = s1.latest_cache := by
  cases rows with
  | nil => rfl
  | cons f r =>
    simp only [air_after_loop]
    split <;> rfl

theorem air_after_loop_cons_dup (c : String) (first : AirRow) (rest : List AirRow)
    (s1 : AirState)
    (hdup : first.timestamp_utc ∈ s1.recent_data_cache.map (fun r => r.timestamp_utc)) :
    air_after_loop c (first :: rest) s1 =
      { s1 with last_poll_error := Option.none, initial_poll_done := true } := by
  simp only [air_after_loop]
  rw [if_pos hdup]

theorem air_after_loop_cons_write (c : String) (first : AirRow) (rest : List AirRow)
    (s1 : AirState)
    (hnew : first.timestamp_utc ∉ s1.recent_data_cache.map (fun r => r.timestamp_utc)) :
    air_after_loop c (first :: rest) s1 =
      { s1 with
        csvRows := s1.csvRows ++ first :: rest
        rows_written_total := s1.rows_written_total + (first :: rest).length
        recent_data_cache := cleanup_old_data c (s1.recent_data_cache ++ first :: rest)
        last_poll_error := Option.none
        initial_poll_done := true } := by
  simp only [air_after_loop]
  rw [if_neg hnew]

theorem air_after_loop_cons_err_none (c : String) (first : AirRow) (rest : List AirRow)
    (s1 : AirState) :
    (air_after_loop c (first :: rest) s1).last_poll_error = Option.none := by
  simp only [air_after_loop]
  split <;> rfl

theorem poll_once_eq_after_loop (env : AirEnv) (s : AirState)
    (hk : ¬ env.apiKey.getD "" = "") :
    poll_once env s =
      air_after_loop env.cutoff_iso
        (air_process env.fetch env.clock env.locations (air_init_acc s)).all_rows
        (air_mid_state env s) := by
  unfold poll_once
  rw [if_neg hk]

theorem mem_cleanup_old_data (c : String) (l : List AirRow) (row : AirRow)
    (h : row ∈ cleanup_old_data c l) : pyStrLe c row.timestamp_utc = true := by
  unfold cleanup_old_data at h
  exact (List.mem_filter.mp h).2

end Air

namespace Maps

/-! Helper lemmas about the corridor loop. -/

theorem maps_process_rows_ts (fetch : Corridor → Except String RouteData) (ts : String)
    (cs : List Corridor) (acc : MapsAcc)
    (hacc : ∀ r ∈ acc.rows, r.timestamp_utc = ts) :
    ∀ r ∈ (maps_process fetch ts cs acc).rows, r.timestamp_utc = ts := by
  induction cs generalizing acc with
  | nil => exact hacc
  | cons c t ih =>
    show ∀ r ∈ (maps_process fetch ts t (maps_step fetch ts acc c)).rows, _
    apply ih
    intro r hr
    unfold maps_step at hr
    cases hf : fetch c with
    | ok route =>
      rw [hf] at hr
      rcases List.mem_append.mp hr with h1 | h2
      · exact hacc r h1
      · rw [List.mem_singleton.mp h2]
        rfl
    | error e =>
      rw [hf] at hr
      exact hacc r hr

theorem maps_poll_once_eq_after_loop (env : MapsEnv) (s : MapsState)
    (hk : ¬ env.apiKey.getD "" = "") :
    poll_once env s =
      maps_after_loop env.use_gcs
        (maps_process env.fetch env.ts env.corridors (maps_init_acc s)).rows
        (maps_mid_state env s) := by
  unfold poll_once
  rw [if_neg hk]

theorem maps_after_loop_latest_eq (g : Bool) (first : MapsRow) (rest : List MapsRow)
    (s1 : MapsState) :
    (maps_after_loop g (first :: rest) s1).latest_cache
      = (maps_update_caches (first :: rest) s1.latest_cache s1.history_cache
          s1.rows_written_total).1 := rfl

theorem maps_process_rows_eq (fetch : Corridor → Except String RouteData) (ts : String)
    (cs : List Corridor) (acc : MapsAcc) :
    (maps_process fetch ts cs acc).rows = acc.rows ++ maps_rows_for fetch ts cs := by
  induction cs generalizing acc with
  | nil => simp [maps_process, maps_rows_for]
  | cons c t ih =>
    show (maps_process fetch ts t (maps_step fetch ts acc c)).rows = _
    rw [ih]
    unfold maps_step
    cases hf : fetch c with
    | ok route =>
      simp [maps_rows_for, List.filterMap_cons, hf, List.append_assoc]
    | error e =>
      simp [maps_rows_for, List.filterMap_cons, hf]

theorem maps_rows_for_labels (fetch : Corridor → Except String RouteData) (ts : String)
    (cs : List Corridor) (r : MapsRow) (hr : r ∈ maps_rows_for fetch ts cs) :
    r.label ∈ cs.map (fun x => x.label) := by
  rcases List.mem_filterMap.mp hr with ⟨c, hc, hfc⟩
  cases hf : fetch c with
  | ok route =>
    rw [hf] at hfc
    cases Option.some.inj hfc
    exact List.mem_map.mpr ⟨c, hc, rfl⟩
  | error e =>
    rw [hf] at hfc
    exact Option.noConfusion hfc

theorem maps_rows_for_mem_of_ok (fetch : Corridor → Except String RouteData) (ts : String)
    (cs : List Corridor) (c : Corridor) (route : RouteData)
    (hmem : c ∈ cs) (hf : fetch c = Except.ok route) :
    maps_build_row ts c route ∈ maps_rows_for fetch ts cs :=
  List.mem_filterMap.mpr ⟨c, hmem, by rw [hf]⟩

theorem maps_update_caches_latest_preserve (rows : List MapsRow)
    (latest : List (String × MapsRow)) (hist : List (String × List HistEntry)) (total : Nat)
    (lbl : String) (h : ∀ r ∈ rows, r.label ≠ lbl) :
    lookupAssoc (maps_update_caches rows latest hist total).1 lbl = lookupAssoc latest lbl := by
  induction rows generalizing latest hist total with
  | nil => rfl
  | cons r rs ih =>
    show lookupAssoc (maps_update_caches rs (updateAssoc latest r.label r) _ _).1 lbl = _
    rw [ih _ _ _ (fun x hx => h x (List.mem_cons_of_mem r hx))]
    exact lookupAssoc_updateAssoc_ne _ _ _ _ (h r (List.mem_cons_self r rs))

theorem maps_update_latest_of_ok (fetch : Corridor → Except String RouteData) (ts : String)
    (cs : List Corridor) (latest : List (String × MapsRow))
    (hist : List (String × List HistEntry)) (total : Nat) (c : Corridor) (route : RouteData)
    (hnd : (cs.map (fun x => x.label)).Nodup)
    (hmem : c ∈ cs) (hf : fetch c = Except.ok route) :
    lookupAssoc (maps_update_caches (maps_rows_for fetch ts cs) latest hist total).1 c.label
      = Option.some (maps_build_row ts c route) := by
  induction cs generalizing latest hist total with
  | nil => cases hmem
  | cons c' t ih =>
    simp only [List.map_cons, List.nodup_cons] at hnd
    rcases List.mem_cons.mp hmem with heq | hmem'
    · subst heq
      rw [show maps_rows_for fetch ts (c :: t)
            = maps_build_row ts c route :: maps_rows_for fetch ts t from by
          simp [maps_rows_for, List.filterMap_cons, hf]]
      show lookupAssoc (maps_update_caches (maps_rows_for fetch ts t)
          (updateAssoc latest c.label (maps_build_row ts c route)) _ _).1 c.label = _
      have hpres : ∀ r ∈ maps_rows_for fetch ts t, r.label ≠ c.label := by
        intro r hr heq
        exact hnd.1 (heq ▸ maps_rows_for_labels fetch ts t r hr)
      rw [maps_update_caches_latest_preserve _ _ _ _ _ hpres]
      exact lookupAssoc_updateAssoc_self _ _ _
    · cases hfc : fetch c' with
      | ok route' =>
        rw [show maps_rows_for fetch ts (c' :: t)
              = maps_build_row ts c' route' :: maps_rows_for fetch ts t from by
            simp [maps_rows_for, List.filterMap_cons, hfc]]
        show lookupAssoc (maps_update_caches (maps_rows_for fetch ts t)
            (updateAssoc latest c'.label (maps_build_row ts c' route')) _ _).1 c.label = _
        exact ih _ _ _ hnd.2 hmem'
      | error e =>
        rw [show maps_rows_for fetch ts (c' :: t) = maps_rows_for fetch ts t from by
            simp [maps_rows_for, List.filterMap_cons, hfc]]
        exact ih _ _ _ hnd.2 hmem'

end Maps

/-! Claim theorems. -/

/-- Claim C1, counterexample: the corridor service has no duplicate guard at
all.  Triggering the same single-corridor cycle twice with an identical
forced timestamp appends the identical (label, observed_at) row a second
time and increments rows_written_total from 1 to 2, contradicting the claim
that the second trigger appends no row and leaves totalRowsWritten
unchanged. -/
theorem claim1_counterexample :
    (Maps.poll_once Maps.mapsEnv0 Maps.mapsS0).rows_written_total = 1
    ∧ (Maps.poll_once Maps.mapsEnv0 (Maps.poll_once Maps.mapsEnv0 Maps.mapsS0)).rows_written_total
      = 2
    ∧ (Maps.poll_once Maps.mapsEnv0 (Maps.poll_once Maps.mapsEnv0 Maps.mapsS0)).csvLocal
      = Option.some [Maps.CSV_HEADER,
          Maps.mapsLocalCells (Maps.maps_build_row Maps.mapsEnv0.ts Maps.corA Maps.routeA),
          Maps.mapsLocalCells (Maps.maps_build_row Maps.mapsEnv0.ts Maps.corA Maps.routeA)]
    ∧ (Maps.maps_build_row Maps.mapsEnv0.ts Maps.corA Maps.routeA).label = "A"
    ∧ (Maps.maps_build_row Maps.mapsEnv0.ts Maps.corA Maps.routeA).timestamp_utc
      = Maps.mapsEnv0.ts := by
  decide

/-- Claim C1, amended: only the record-oriented (air) service has a duplicate
guard, and it compares the FIRST collected row's timestamp against the
timestamps in the recent cache.  When a second trigger's first reading
carries a timestamp already present in the recent cache, the cycle appends
nothing to the log and rows_written_total is unchanged.  The corridor
service appends unconditionally (see the counterexample). -/
theorem claim1_theorem (env : Air.AirEnv) (s : Air.AirState) (first : Air.AirRow)
    (rest : List Air.AirRow)
    (hk : ¬ env.apiKey.getD "" = "")
    (hacc : (Air.air_process env.fetch env.clock env.locations (Air.air_init_acc s)).all_rows
      = first :: rest)
    (hdup : first.timestamp_utc ∈ s.recent_data_cache.map (fun r => r.timestamp_utc)) :
    (Air.poll_once env s).csvRows = s.csvRows
    ∧ (Air.poll_once env s).rows_written_total = s.rows_written_total := by
  have h1 : Air.poll_once env s
      = { Air.air_mid_state env s with
          last_poll_error := Option.none, initial_poll_done := true } := by
    rw [Air.poll_once_eq_after_loop env s hk, hacc]
    exact Air.air_after_loop_cons_dup env.cutoff_iso first rest (Air.air_mid_state env s) hdup
  rw [h1]
  exact ⟨rfl, rfl⟩

/-- Claim C1, witness: a concrete second trigger of the air service whose
forced timestamp is already cached appends nothing. -/
theorem claim1_witness :
    (Air.poll_once Air.envAB Air.sDup).csvRows = Air.sDup.csvRows
    ∧ (Air.poll_once Air.envAB Air.sDup).rows_written_total = Air.sDup.rows_written_total :=
  claim1_theorem Air.envAB Air.sDup Air.rowA [] (by decide) (by decide) (by decide)

set_option maxRecDepth 100000 in
/-- Claim C2, counterexample: the corridor service never evicts from its
history cache.  After 151 successful single-corridor cycles with distinct
timestamps the series for the corridor holds 151 entries, exceeding the
chart-window bound PLOT_WINDOW_LIMIT = 150 the claim asserts. -/
theorem claim2_counterexample :
    ((lookupAssoc (Maps.c2State 151).history_cache "A").getD []).length = 151
    ∧ ¬ ((lookupAssoc (Maps.c2State 151).history_cache "A").getD []).length
        ≤ Maps.PLOT_WINDOW_LIMIT := by
  decide

/-- Claim C2, amended: the record-oriented (air) deployment does evict by the
24-hour age cutoff: after any cycle that appends rows, every entry retained
in the recent cache has a timestamp at or after the cutoff.  The
corridor-oriented deployment performs no eviction at all (its history cache
grows without bound; only the read endpoints slice to the chart window), so
no max-count bound holds there. -/
theorem claim2_theorem (env : Air.AirEnv) (s : Air.AirState) (first : Air.AirRow)
    (rest : List Air.AirRow) (row : Air.AirRow)
    (hk : ¬ env.apiKey.getD "" = "")
    (hacc : (Air.air_process env.fetch env.clock env.locations (Air.air_init_acc s)).all_rows
      = first :: rest)
    (hnew : first.timestamp_utc ∉ s.recent_data_cache.map (fun r => r.timestamp_utc))
    (hrow : row ∈ (Air.poll_once env s).recent_data_cache) :
    pyStrLe env.cutoff_iso row.timestamp_utc = true := by
  rw [Air.poll_once_eq_after_loop env s hk, hacc,
    Air.air_after_loop_cons_write env.cutoff_iso first rest (Air.air_mid_state env s) hnew]
    at hrow
  exact Air.mem_cleanup_old_data _ _ _ hrow

/-- Claim C2, witness: in the concrete fresh-cycle scenario the appended
reading is retained and satisfies the cutoff. -/
theorem claim2_witness :
    Air.rowA ∈ (Air.poll_once Air.envAB Air.s0).recent_data_cache
    ∧ pyStrLe Air.envAB.cutoff_iso Air.rowA.timestamp_utc = true :=
  ⟨by decide,
    claim2_theorem Air.envAB Air.s0 Air.rowA [] Air.rowA (by decide) (by decide) (by decide)
      (by decide)⟩

/-- Claim C3, counterexample: in the two-entity scenario (A succeeds, B
raises) the cycle ends with last_poll_error = None, not an error mentioning
B: the source resets last_poll_error to None whenever the cycle collected at
least one row, overwriting the error recorded for B during the loop. -/
theorem claim3_counterexample :
    (Air.poll_once Air.envAB Air.s0).last_poll_error = Option.none := by
  decide

/-- Claim C3, amended: after the cycle over A (succeeds, aqi 42 / no2 10)
and B (fetch raises timeout), the Latest Cache holds exactly A's reading,
exactly one data row was appended, totalRowsWritten is 1, and lastError is
None (B's per-entity error was recorded during the loop but is cleared at
the end of any cycle that produced at least one reading). -/
theorem claim3_theorem :
    (Air.poll_once Air.envAB Air.s0).latest_cache = [("A", Air.rowA)]
    ∧ (Air.poll_once Air.envAB Air.s0).rows_written_total = 1
    ∧ (Air.poll_once Air.envAB Air.s0).csvRows = [Air.rowA]
    ∧ (Air.poll_once Air.envAB Air.s0).recent_data_cache = [Air.rowA]
    ∧ (Air.poll_once Air.envAB Air.s0).last_poll_error = Option.none := by
  decide

set_option maxRecDepth 100000 in
/-- Claim C4, counterexample: appending a batch with the mirror enabled
diverges from the local CSV twice over.  A missing metric (static_sec of
rowN, column 7) is an empty cell locally but the literal "None" in the
mirror; and a present advisory_json containing quotes and a comma (rowQ,
column 10) is quoted and escaped by csv.DictWriter locally but written raw
into the mirror's unquoted comma-join, so the mirrored copy does not
reproduce the local row sequence even on present cells. -/
theorem claim4_counterexample :
    (Maps.append_to_csv true [Maps.rowN] (Option.some [Maps.CSV_HEADER]) Option.none).1
      = Option.some [Maps.CSV_HEADER, Maps.mapsLocalCells Maps.rowN]
    ∧ (Maps.append_to_csv true [Maps.rowN] (Option.some [Maps.CSV_HEADER]) Option.none).2
      = Option.some (joinComma Maps.CSV_HEADER ++ "\n" ++ Maps.mapsGcsLine Maps.rowN ++ "\n")
    ∧ (Maps.mapsLocalCells Maps.rowN)[7]? = Option.some ""
    ∧ (Maps.mapsGcsCells Maps.rowN)[7]? = Option.some "None"
    ∧ (Maps.mapsLocalCells Maps.rowQ)[10]?
      = Option.some "\"\x7b\"\"a\"\": 1, \"\"b\"\": 2\x7d\""
    ∧ (Maps.mapsGcsCells Maps.rowQ)[10]? = Option.some "\x7b\"a\": 1, \"b\": 2\x7d"
    ∧ ¬ Maps.mapsLocalCells Maps.rowN = Maps.mapsGcsCells Maps.rowN
    ∧ ¬ Maps.mapsLocalCells Maps.rowQ = Maps.mapsGcsCells Maps.rowQ := by
  decide

/-- Claim C4, amended: a missing metric value is written to the local log as
an empty cell while the mirror renders it as the literal "None".  A present
value reaches the local sink as its str() text serialized under the csv
module's QUOTE_MINIMAL policy, but reaches the mirror as the raw str() text
in an unquoted comma-join, so the two sinks agree exactly on present cells
whose text needs no csv quoting and diverge both on missing metrics and on
present cells containing a quote, comma or newline (such as the json of any
non-empty travel advisory). -/
theorem claim4_theorem (r : Maps.MapsRow) (i : Nat) (c : Cell)
    (hc : (Maps.mapsCellsOf r)[i]? = Option.some c) :
    (c = Cell.none →
      (Maps.mapsLocalCells r)[i]? = Option.some ""
      ∧ (Maps.mapsGcsCells r)[i]? = Option.some "None")
    ∧ (¬ c = Cell.none →
      (Maps.mapsLocalCells r)[i]? = Option.some (csvQuoteMinimal (pyStr c))
      ∧ (Maps.mapsGcsCells r)[i]? = Option.some (pyStr c)
      ∧ (needsQuoting (pyStr c) = false →
          (Maps.mapsLocalCells r)[i]? = (Maps.mapsGcsCells r)[i]?)
      ∧ (needsQuoting (pyStr c) = true →
          ¬ (Maps.mapsLocalCells r)[i]? = (Maps.mapsGcsCells r)[i]?)) := by
  unfold Maps.mapsLocalCells Maps.mapsGcsCells
  rw [List.getElem?_map, List.getElem?_map, hc]
  constructor
  · intro h
    subst h
    exact ⟨rfl, rfl⟩
  · intro h
    have hl : (Option.some c).map csvCellStr = Option.some (csvQuoteMinimal (pyStr c)) := by
      cases c with
      | none => exact absurd rfl h
      | int n => rfl
      | rat q => rfl
      | str s => rfl
    have hg : (Option.some c).map pyStr = Option.some (pyStr c) := rfl
    rw [hl, hg]
    refine ⟨rfl, rfl, ?_, ?_⟩
    · intro hq
      rw [csvQuoteMinimal_eq_of_plain _ hq]
    · intro hq he
      exact csvQuoteMinimal_ne_of_needsQuoting _ hq (Option.some.inj he)

/-- Claim C4, witness: the concrete missing-metric cell of rowN and the
concrete quote-bearing advisory cell of rowQ. -/
theorem claim4_witness :
    ((Maps.mapsCellsOf Maps.rowN)[7]? = Option.some Cell.none
      ∧ (Maps.mapsLocalCells Maps.rowN)[7]? = Option.some ""
      ∧ (Maps.mapsGcsCells Maps.rowN)[7]? = Option.some "None")
    ∧ ((Maps.mapsCellsOf Maps.rowQ)[10]? = Option.some (Cell.str Maps.rowQ.advisory_json)
      ∧ ¬ (Maps.mapsLocalCells Maps.rowQ)[10]? = (Maps.mapsGcsCells Maps.rowQ)[10]?) :=
  ⟨⟨by decide, (claim4_theorem Maps.rowN 7 Cell.none (by decide)).1 rfl⟩,
   ⟨by decide,
    ((claim4_theorem Maps.rowQ 10 (Cell.str Maps.rowQ.advisory_json)
      (by decide)).2 (by decide)).2.2.2 (by decide)⟩⟩

/-- Claim C5, counterexample: the air service stamps each reading inside
parse_air_quality_data with its own datetime.now call, so a cycle over two
locations whose parse calls observe different clock values produces two
readings with different observed_at timestamps. -/
theorem claim5_counterexample :
    (Air.poll_once Air.envTwoClocks Air.s0).csvRows.map (fun r => r.timestamp_utc)
      = ["2024-01-01T00:00:00+00:00", "2024-01-01T00:00:01+00:00"]
    ∧ ¬ ("2024-01-01T00:00:00+00:00" : String) = "2024-01-01T00:00:01+00:00" := by
  decide

/-- Claim C5, amended: in the corridor service a single timestamp ts is
taken before the loop and every reading produced in the cycle carries it; in
the air service each reading is stamped at parse time, so timestamps may
differ within one cycle (see the counterexample). -/
theorem claim5_theorem (env : Maps.MapsEnv) (s : Maps.MapsState) (r : Maps.MapsRow)
    (hr : r ∈ (Maps.maps_process env.fetch env.ts env.corridors (Maps.maps_init_acc s)).rows) :
    r.timestamp_utc = env.ts :=
  Maps.maps_process_rows_ts env.fetch env.ts env.corridors (Maps.maps_init_acc s)
    (fun r h => absurd h (List.not_mem_nil r)) r hr

/-- Claim C5, witness: the concrete single-corridor cycle's reading carries
the cycle timestamp. -/
theorem claim5_witness :
    Maps.maps_build_row Maps.mapsEnv0.ts Maps.corA Maps.routeA
      ∈ (Maps.maps_process Maps.mapsEnv0.fetch Maps.mapsEnv0.ts Maps.mapsEnv0.corridors
          (Maps.maps_init_acc Maps.mapsS0)).rows
    ∧ (Maps.maps_build_row Maps.mapsEnv0.ts Maps.corA Maps.routeA).timestamp_utc
      = Maps.mapsEnv0.ts :=
  ⟨by decide, claim5_theorem Maps.mapsEnv0 Maps.mapsS0 _ (by decide)⟩

/-- Claim C6: in both services, after a poll cycle, for every configured
entity whose fetch succeeded, the Latest Cache entry for its label equals
the reading just produced for it (last-write-wins, unconditional update),
provided the configured labels are distinct.  In the air service the cache
is overwritten during the location loop; in the corridor service the
post-append row loop overwrites it. -/
theorem claim6_theorem :
    (∀ (env : Air.AirEnv) (s : Air.AirState) (loc : Air.Location) (raw : Air.RawData),
      ¬ env.apiKey.getD "" = "" →
      (env.locations.map (fun l => l.label)).Nodup →
      loc ∈ env.locations →
      env.fetch loc = Except.ok raw →
      lookupAssoc (Air.poll_once env s).latest_cache loc.label
        = Option.some (Air.create_csv_row (Air.parse_air_quality_data raw loc (env.clock loc))))
    ∧ (∀ (env : Maps.MapsEnv) (s : Maps.MapsState) (c : Maps.Corridor)
        (route : Maps.RouteData),
      ¬ env.apiKey.getD "" = "" →
      (env.corridors.map (fun x => x.label)).Nodup →
      c ∈ env.corridors →
      env.fetch c = Except.ok route →
      lookupAssoc (Maps.poll_once env s).latest_cache c.label
        = Option.some (Maps.maps_build_row env.ts c route)) := by
  constructor
  · intro env s loc raw hk hnd hmem hf
    rw [Air.poll_once_eq_after_loop env s hk, Air.air_after_loop_latest]
    exact Air.air_process_latest_of_ok env.fetch env.clock env.locations _ loc raw hnd hmem hf
  · intro env s c route hk hnd hmem hf
    rw [Maps.maps_poll_once_eq_after_loop env s hk, Maps.maps_process_rows_eq,
      show (Maps.maps_init_acc s).rows = [] from rfl, List.nil_append]
    cases hrows : Maps.maps_rows_for env.fetch env.ts env.corridors with
    | nil =>
      exact absurd
        (hrows ▸ Maps.maps_rows_for_mem_of_ok env.fetch env.ts env.corridors c route hmem hf)
        (List.not_mem_nil _)
    | cons first rest =>
      rw [Maps.maps_after_loop_latest_eq, ← hrows]
      exact Maps.maps_update_latest_of_ok env.fetch env.ts env.corridors _ _ _ c route
        hnd hmem hf

/-- Claim C6, witness: in the concrete scenarios the air cache entry for A
equals the reading produced for A, and the corridor cache entry for the
single corridor equals the row just built for it. -/
theorem claim6_witness :
    (lookupAssoc (Air.poll_once Air.envAB Air.s0).latest_cache Air.locA.label
      = Option.some (Air.create_csv_row (Air.parse_air_quality_data Air.rawA Air.locA
          (Air.envAB.clock Air.locA))))
    ∧ (lookupAssoc (Maps.poll_once Maps.mapsEnv0 Maps.mapsS0).latest_cache Maps.corA.label
      = Option.some (Maps.maps_build_row Maps.mapsEnv0.ts Maps.corA Maps.routeA)) :=
  ⟨claim6_theorem.1 Air.envAB Air.s0 Air.locA Air.rawA (by decide) (by decide) (by decide) rfl,
   claim6_theorem.2 Maps.mapsEnv0 Maps.mapsS0 Maps.corA Maps.routeA (by decide) (by decide)
     (by decide) rfl⟩

/-- Claim C7, counterexample: with GCS enabled the corridor service's
ensure_long_csv is a no-op, so a missing backing file is NOT created with
the header row, contradicting the creation half of the claim. -/
theorem claim7_counterexample :
    Maps.ensure_long_csv true Option.none = Option.none
    ∧ ¬ Maps.ensure_long_csv true Option.none = Option.some [Maps.CSV_HEADER] := by
  decide

/-- Claim C7, amended: ensure_csv of the air service always creates a
missing store with exactly the header row, and ensure_long_csv of the
corridor service does so only when GCS is disabled (with GCS enabled it
creates nothing and the blob is created lazily on first append); in every
mode both functions are idempotent and never alter an existing store. -/
theorem claim7_theorem :
    (∀ f : FileCsv, Air.ensure_csv (Air.ensure_csv f) = Air.ensure_csv f)
    ∧ (∀ c : List (List String), Air.ensure_csv (Option.some c) = Option.some c)
    ∧ Air.ensure_csv Option.none = Option.some [Air.CSV_HEADER]
    ∧ (∀ (g : Bool) (f : FileCsv),
        Maps.ensure_long_csv g (Maps.ensure_long_csv g f) = Maps.ensure_long_csv g f)
    ∧ (∀ (g : Bool) (c : List (List String)),
        Maps.ensure_long_csv g (Option.some c) = Option.some c)
    ∧ Maps.ensure_long_csv false Option.none = Option.some [Maps.CSV_HEADER] := by
  refine ⟨?_, ?_, rfl, ?_, ?_, rfl⟩
  · intro f
    cases f <;> rfl
  · intro c
    rfl
  · intro g f
    cases g <;> cases f <;> rfl
  · intro g c
    cases g <;> rfl

/-- Claim C8, counterexample: a payload with live duration "0s" and
free-flow duration "100s" parses to 0 and 100, the denominator is non-zero,
yet congestion_index is None: the source's truthiness test treats a live
duration of 0 as missing. -/
theorem claim8_counterexample :
    Maps.seconds_to_int Maps.routeZ.duration = Option.some 0
    ∧ Maps.seconds_to_int Maps.routeZ.staticDuration = Option.some 100
    ∧ (Maps.maps_build_row "2024-01-01T00:00:00+00:00" Maps.corA Maps.routeZ).congestion_index
      = Option.none := by
  decide

/-- Claim C8, amended: congestion_index is present iff both durations were
parsed, the live duration is non-zero, and the static duration is strictly
positive; when present it equals the live/static ratio rounded to 3 decimal
places (round-half-even on the exact rational value).  The row built by
poll_once takes exactly this value. -/
theorem claim8_theorem :
    (∀ (dur sd : Option Int) (q : Rat),
      Maps.congestion_of dur sd = Option.some q ↔
        ∃ d s : Int, dur = Option.some d ∧ sd = Option.some s ∧ ¬ d = 0 ∧ 0 < s
          ∧ q = Maps.pyRound3 ((d : Rat) / (s : Rat)))
    ∧ (∀ (ts : String) (c : Maps.Corridor) (r : Maps.RouteData),
        (Maps.maps_build_row ts c r).congestion_index
          = Maps.congestion_of (Maps.seconds_to_int r.duration)
              (Maps.seconds_to_int r.staticDuration)) := by
  constructor
  · intro dur sd q
    cases dur with
    | none => simp [Maps.congestion_of]
    | some d =>
      cases sd with
      | none => simp [Maps.congestion_of]
      | some s0 =>
        simp only [Maps.congestion_of]
        by_cases h : d ≠ 0 ∧ s0 ≠ 0 ∧ 0 < s0
        · rw [if_pos h]
          constructor
          · intro he
            exact ⟨d, s0, rfl, rfl, h.1, h.2.2, (Option.some.inj he).symm⟩
          · rintro ⟨d', s', hd, hs, hd0, hs0, hq⟩
            cases Option.some.inj hd
            cases Option.some.inj hs
            rw [hq]
        · rw [if_neg h]
          constructor
          · intro he
            exact Option.noConfusion he
          · rintro ⟨d', s', hd, hs, hd0, hs0, hq⟩
            cases Option.some.inj hd
            cases Option.some.inj hs
            exact absurd ⟨hd0, hs0.ne', hs0⟩ h
  · intro ts c r
    rfl

/-- Claim C9: the main program's startup block removes an existing CSV file
and recreates it, so whatever the previous content was, after startup the
file holds exactly the header row and no row from an earlier run survives. -/
theorem claim9_theorem (f : FileCsv) :
    Air.main_startup f = Option.some [Air.CSV_HEADER] := by
  cases f <;> rfl

/-- Claim C10: on a cycle whose first collected reading carries a timestamp
already present in the recent cache, the CSV log, the recent cache and
rows_written_total are left unchanged, while the Latest Cache was already
overwritten during the loop with each newly produced reading and
last_poll_error is nevertheless reset to None. -/
theorem claim10_theorem (env : Air.AirEnv) (s : Air.AirState) (first : Air.AirRow)
    (rest : List Air.AirRow)
    (hk : ¬ env.apiKey.getD "" = "")
    (hacc : (Air.air_process env.fetch env.clock env.locations (Air.air_init_acc s)).all_rows
      = first :: rest)
    (hdup : first.timestamp_utc ∈ s.recent_data_cache.map (fun r => r.timestamp_utc)) :
    (Air.poll_once env s).csvRows = s.csvRows
    ∧ (Air.poll_once env s).recent_data_cache = s.recent_data_cache
    ∧ (Air.poll_once env s).rows_written_total = s.rows_written_total
    ∧ (Air.poll_once env s).last_poll_error = Option.none
    ∧ (Air.poll_once env s).latest_cache
      = (Air.air_process env.fetch env.clock env.locations (Air.air_init_acc s)).latest := by
  have h1 : Air.poll_once env s
      = { Air.air_mid_state env s with
          last_poll_error := Option.none, initial_poll_done := true } := by
    rw [Air.poll_once_eq_after_loop env s hk, hacc]
    exact Air.air_after_loop_cons_dup env.cutoff_iso first rest (Air.air_mid_state env s) hdup
  rw [h1]
  exact ⟨rfl, rfl, rfl, rfl, rfl⟩

/-- Claim C10, witness: the concrete duplicate-timestamp cycle leaves log,
recent cache and counter unchanged while the latest cache took the loop's
values and the error is cleared. -/
theorem claim10_witness :
    (Air.poll_once Air.envAB Air.sDup).csvRows = Air.sDup.csvRows
    ∧ (Air.poll_once Air.envAB Air.sDup).recent_data_cache = Air.sDup.recent_data_cache
    ∧ (Air.poll_once Air.envAB Air.sDup).rows_written_total = Air.sDup.rows_written_total
    ∧ (Air.poll_once Air.envAB Air.sDup).last_poll_error = Option.none
    ∧ (Air.poll_once Air.envAB Air.sDup).latest_cache
      = (Air.air_process Air.envAB.fetch Air.envAB.clock Air.envAB.locations
          (Air.air_init_acc Air.sDup)).latest :=
  claim10_theorem Air.envAB Air.sDup Air.rowA [] (by decide) (by decide) (by decide)

end ArmeniaPollution
